import Mathlib

/-!
Verification of the session-lifecycle manager and tool-dispatch gateway of a
seller-API MCP server, shallowly embedded from `src/index.ts`.

Modelling conventions:
* JavaScript optional fields become `Option`; JS truthiness of a string value
  (`undefined` and `""` are falsy) becomes `strTruthy`, of a number
  (`undefined` and `0` are falsy) becomes `natTruthy`.
* `Date.now()` is passed in explicitly as `now : Nat` (epoch milliseconds)
  and is frozen for the duration of one operation.
* The token store has the two backends of the source: an in-process map
  (`memData`) and an optional durable cache (`redisData`, configured iff
  `redisConfigured`).  Each store operation takes a `Bool` saying whether the
  durable-cache call succeeds this time; when no durable cache is configured
  the flag is irrelevant.  Maps are functions `String → Option SellerTokens`.
* Network I/O is resolved by an `Oracle` that supplies the outcome of each
  kind of remote call the code can make (token issuance, token refresh, and
  the authenticated API call); every operation additionally returns the list
  of `NetCall`s it issued, so that "no network call was made" is a statement
  about that list.
* The remote JSON payload of a successful authenticated API call, and its
  rendering through the per-tool textual templates, are abstracted into one
  opaque `String`: no claim below concerns the rendered field content, only
  error texts (which are modelled verbatim), request method/path/bearer, and
  error propagation.
* Exceptions become `Except String`; the message carried is the one the code
  computes (`error.response?.data?.message || error.message` is modelled by
  the oracle supplying that resolved message directly).
-/

/-- The per-account session record (`SellerTokens` in the source); all four
fields are optional in the TypeScript interface. -/
structure SellerTokens where
  accessToken : Option String
  refreshToken : Option String
  expiresOn : Option Nat
  sellerId : Option String
deriving Repr, DecidableEq

/-- JS truthiness of an optional string: `undefined` and `""` are falsy. -/
def strTruthy : Option String → Bool
  | some s => !(s == "")
  | none => false

/-- JS truthiness of an optional number: `undefined` and `0` are falsy. -/
def natTruthy : Option Nat → Bool
  | some n => !(n == 0)
  | none => false

/-- JS `a || b` on optional strings (first operand if truthy, else second). -/
def strOr (a b : Option String) : Option String :=
  if strTruthy a then a else b

/-- Point update of a map. -/
def upd (f : String → Option SellerTokens) (k : String) (v : Option SellerTokens) :
    String → Option SellerTokens :=
  fun x => if x = k then v else f x

/-- The token store: the in-process `Map` plus the optional durable cache
(Redis).  `redisConfigured` models whether `REDIS_URL` was provided. -/
structure TokenStore where
  redisConfigured : Bool
  redisData : String → Option SellerTokens
  memData : String → Option SellerTokens

/-- A remote call made by an operation, recorded for effect reasoning. -/
inductive NetCall where
  | authToken (sellerId apiKey apiSecret : String)
  | authRefresh (refreshToken : String)
  | apiCall (method endpoint bearer : String)
deriving Repr, DecidableEq

/-- Shape of the remote token endpoint's response body
(`{access_token, refresh_token, expires_in}`); `expires_in` is in seconds.
Fields the remote may omit are `Option`. -/
structure TokenResponse where
  access_token : Option String
  refresh_token : Option String
  expires_in : Nat
deriving Repr, DecidableEq

/-- Outcomes of the remote calls an operation may make, plus whether the
durable-cache operations succeed during it.  An `Except.error` carries the
message the code would extract from the failure
(`error.response?.data?.message || error.message`). -/
structure Oracle where
  redisOk : Bool
  refreshResp : Except String TokenResponse
  tokenResp : Except String TokenResponse
  apiResp : Except String String
deriving Repr

/-- `storeTokens`: with a durable cache configured, `setEx` is attempted
first; on its failure the tokens go to the in-process map instead (the
source's `catch` branch).  Without a cache, the in-process map is used. -/
def storeTokens (st : TokenStore) (redisOk : Bool) (sellerId : String)
    (tokens : SellerTokens) : TokenStore :=
  if st.redisConfigured then
    if redisOk then
      { st with redisData := upd st.redisData sellerId (some tokens) }
    else
      { st with memData := upd st.memData sellerId (some tokens) }
  else
    { st with memData := upd st.memData sellerId (some tokens) }

/-- `getTokens`: with a durable cache configured, read it; a durable read
failure falls back to the in-process map.  A durable read that succeeds but
finds nothing returns `none` without consulting the in-process map. -/
def getTokens (st : TokenStore) (redisOk : Bool) (sellerId : String) :
    Option SellerTokens :=
  if st.redisConfigured then
    if redisOk then st.redisData sellerId
    else st.memData sellerId
  else st.memData sellerId

/-- `revokeTokens`: with a durable cache configured, attempt the durable
delete (its failure is logged and swallowed), then always delete from the
in-process map.  Never fails. -/
def revokeTokens (st : TokenStore) (redisOk : Bool) (sellerId : String) :
    TokenStore :=
  let st1 :=
    if st.redisConfigured && redisOk then
      { st with redisData := upd st.redisData sellerId none }
    else st
  { st1 with memData := upd st1.memData sellerId none }

/-- `checkAuthentication` (the spec's `isAuthenticated`): false when no
tokens or falsy access token; true when the expiry is truthy and in the
future; otherwise, with a truthy refresh token, call the remote refresh
endpoint — on success store the replacement session (keeping the old refresh
token when the response's is falsy) and return true, on failure revoke and
return false; with no refresh token, return false without a network call. -/
def checkAuthentication (st : TokenStore) (now : Nat) (o : Oracle)
    (sellerId : String) : Bool × TokenStore × List NetCall :=
  match getTokens st o.redisOk sellerId with
  | none => (false, st, [])
  | some tokens =>
    if strTruthy tokens.accessToken = false then (false, st, [])
    else if natTruthy tokens.expiresOn && decide (now < tokens.expiresOn.getD 0) then
      (true, st, [])
    else if strTruthy tokens.refreshToken then
      let rt := tokens.refreshToken.getD ""
      match o.refreshResp with
      | Except.ok resp =>
        let updatedTokens : SellerTokens :=
          { accessToken := resp.access_token
            refreshToken := strOr resp.refresh_token tokens.refreshToken
            expiresOn := some (now + resp.expires_in * 1000)
            sellerId := some sellerId }
        (true, storeTokens st o.redisOk sellerId updatedTokens,
          [NetCall.authRefresh rt])
      | Except.error _ =>
        (false, revokeTokens st o.redisOk sellerId, [NetCall.authRefresh rt])
    else (false, st, [])

/-- `makeApiRequest`: throws `Not authenticated` when no tokens or falsy
access token; otherwise issues the request with the access token as bearer
credential and returns the payload, rethrowing the remote error message on
failure. -/
def makeApiRequest (st : TokenStore) (redisOk : Bool)
    (apiResp : Except String String) (sellerId method endpoint : String) :
    Except String String × List NetCall :=
  match getTokens st redisOk sellerId with
  | none => (Except.error "Not authenticated", [])
  | some tokens =>
    match tokens.accessToken with
    | none => (Except.error "Not authenticated", [])
    | some tok =>
      if tok = "" then (Except.error "Not authenticated", [])
      else (apiResp, [NetCall.apiCall method endpoint tok])

/-- The argument object of a tool invocation, restricted to the properties
the dispatch gateway and the handlers actually read for control flow and for
building request paths/queries.  Properties only copied into a request body
are not modelled, since no claim concerns body content.  Numeric arguments
are modelled as `Nat` (the catalog's numbers are non-negative integers). -/
structure ToolArgs where
  seller_id : Option String := none
  api_key : Option String := none
  api_secret : Option String := none
  status : Option String := none
  category : Option String := none
  metric : Option String := none
  from_date : Option String := none
  to_date : Option String := none
  product_id : Option String := none
  order_id : Option String := none
  return_id : Option String := none
  tracking_id : Option String := none
  courier_partner : Option String := none
  action : Option String := none
  reason : Option String := none
  limit : Option Nat := none
  offset : Option Nat := none
  quantity : Option Nat := none
  updates : Option (List String) := none
deriving Repr, DecidableEq

/-- The empty argument object (`args || {}` in the source). -/
def emptyArgs : ToolArgs := {}

/-- A tool invocation's structured reply: text plus error flag (the source
omits `isError` on success, i.e. it is `false`). -/
structure ToolResult where
  text : String
  isError : Bool
deriving Repr, DecidableEq

/-- A successful handler reply; the handler's textual template applied to the
remote JSON payload is abstracted as the opaque payload string. -/
def renderOk (payload : String) : ToolResult :=
  { text := payload, isError := false }

/-- `URLSearchParams.toString` over the parameter pairs the handlers append
(percent-encoding elided: every value exercised here is URL-safe). -/
def paramsToString : List (String × String) → String
  | [] => ""
  | [(k, v)] => k ++ "=" ++ v
  | (k, v) :: rest => k ++ "=" ++ v ++ "&" ++ paramsToString rest

/-- String a JS template literal renders for a possibly-undefined value. -/
def jsStr (o : Option String) : String := o.getD "undefined"

/-- `listProducts`: builds the `/products` query (status skipped when
`all`, category when falsy; limit and offset always, with defaults 50/0)
and performs the authenticated GET. -/
def listProducts (st : TokenStore) (o : Oracle) (args : ToolArgs) :
    Except String ToolResult × List NetCall :=
  let status := args.status.getD "all"
  let ps :=
    (if status ≠ "all" then [("status", status)] else [])
    ++ (if strTruthy args.category then [("category", args.category.getD "")] else [])
    ++ [("limit", toString (args.limit.getD 50)),
        ("offset", toString (args.offset.getD 0))]
  match makeApiRequest st o.redisOk o.apiResp (jsStr args.seller_id) "GET"
      ("/products?" ++ paramsToString ps) with
  | (Except.ok d, cs) => (Except.ok (renderOk d), cs)
  | (Except.error m, cs) => (Except.error m, cs)

/-- `getProduct`: GET `/products/<product_id>`. -/
def getProduct (st : TokenStore) (o : Oracle) (args : ToolArgs) :
    Except String ToolResult × List NetCall :=
  match makeApiRequest st o.redisOk o.apiResp (jsStr args.seller_id) "GET"
      ("/products/" ++ jsStr args.product_id) with
  | (Except.ok d, cs) => (Except.ok (renderOk d), cs)
  | (Except.error m, cs) => (Except.error m, cs)

/-- `createProduct`: POST `/products` with the product body. -/
def createProduct (st : TokenStore) (o : Oracle) (args : ToolArgs) :
    Except String ToolResult × List NetCall :=
  match makeApiRequest st o.redisOk o.apiResp (jsStr args.seller_id) "POST"
      "/products" with
  | (Except.ok d, cs) => (Except.ok (renderOk d), cs)
  | (Except.error m, cs) => (Except.error m, cs)

/-- `updateProduct`: PATCH `/products/<product_id>`; after a successful call
the source evaluates `Object.keys(updates)`, which throws a `TypeError` when
`updates` is absent. -/
def updateProduct (st : TokenStore) (o : Oracle) (args : ToolArgs) :
    Except String ToolResult × List NetCall :=
  match makeApiRequest st o.redisOk o.apiResp (jsStr args.seller_id) "PATCH"
      ("/products/" ++ jsStr args.product_id) with
  | (Except.ok d, cs) =>
    match args.updates with
    | none => (Except.error "Cannot convert undefined or null to object", cs)
    | some _ => (Except.ok (renderOk d), cs)
  | (Except.error m, cs) => (Except.error m, cs)

/-- `updateInventory`: PATCH `/products/<product_id>/inventory`. -/
def updateInventory (st : TokenStore) (o : Oracle) (args : ToolArgs) :
    Except String ToolResult × List NetCall :=
  match makeApiRequest st o.redisOk o.apiResp (jsStr args.seller_id) "PATCH"
      ("/products/" ++ jsStr args.product_id ++ "/inventory") with
  | (Except.ok d, cs) => (Except.ok (renderOk d), cs)
  | (Except.error m, cs) => (Except.error m, cs)

/-- `listOrders`: builds the `/orders` query (status skipped when `all`,
dates when falsy; limit always, default 50) and performs the GET. -/
def listOrders (st : TokenStore) (o : Oracle) (args : ToolArgs) :
    Except String ToolResult × List NetCall :=
  let status := args.status.getD "all"
  let ps :=
    (if status ≠ "all" then [("status", status)] else [])
    ++ (if strTruthy args.from_date then [("from_date", args.from_date.getD "")] else [])
    ++ (if strTruthy args.to_date then [("to_date", args.to_date.getD "")] else [])
    ++ [("limit", toString (args.limit.getD 50))]
  match makeApiRequest st o.redisOk o.apiResp (jsStr args.seller_id) "GET"
      ("/orders?" ++ paramsToString ps) with
  | (Except.ok d, cs) => (Except.ok (renderOk d), cs)
  | (Except.error m, cs) => (Except.error m, cs)

/-- `getOrder`: GET `/orders/<order_id>`. -/
def getOrder (st : TokenStore) (o : Oracle) (args : ToolArgs) :
    Except String ToolResult × List NetCall :=
  match makeApiRequest st o.redisOk o.apiResp (jsStr args.seller_id) "GET"
      ("/orders/" ++ jsStr args.order_id) with
  | (Except.ok d, cs) => (Except.ok (renderOk d), cs)
  | (Except.error m, cs) => (Except.error m, cs)

/-- `updateOrderStatus`: PATCH `/orders/<order_id>/status`. -/
def updateOrderStatus (st : TokenStore) (o : Oracle) (args : ToolArgs) :
    Except String ToolResult × List NetCall :=
  match makeApiRequest st o.redisOk o.apiResp (jsStr args.seller_id) "PATCH"
      ("/orders/" ++ jsStr args.order_id ++ "/status") with
  | (Except.ok d, cs) => (Except.ok (renderOk d), cs)
  | (Except.error m, cs) => (Except.error m, cs)

/-- `getReturns`: builds the `/returns` query (status default `pending`,
skipped when `all`; limit default 25) and performs the GET. -/
def getReturns (st : TokenStore) (o : Oracle) (args : ToolArgs) :
    Except String ToolResult × List NetCall :=
  let status := args.status.getD "pending"
  let ps :=
    (if status ≠ "all" then [("status", status)] else [])
    ++ [("limit", toString (args.limit.getD 25))]
  match makeApiRequest st o.redisOk o.apiResp (jsStr args.seller_id) "GET"
      ("/returns?" ++ paramsToString ps) with
  | (Except.ok d, cs) => (Except.ok (renderOk d), cs)
  | (Except.error m, cs) => (Except.error m, cs)

/-- `processReturn`: POST `/returns/<return_id>/process`. -/
def processReturn (st : TokenStore) (o : Oracle) (args : ToolArgs) :
    Except String ToolResult × List NetCall :=
  match makeApiRequest st o.redisOk o.apiResp (jsStr args.seller_id) "POST"
      ("/returns/" ++ jsStr args.return_id ++ "/process") with
  | (Except.ok d, cs) => (Except.ok (renderOk d), cs)
  | (Except.error m, cs) => (Except.error m, cs)

/-- `getAnalytics`: builds the `/analytics` query (metric always appended,
dates when falsy) and performs the GET. -/
def getAnalytics (st : TokenStore) (o : Oracle) (args : ToolArgs) :
    Except String ToolResult × List NetCall :=
  let ps :=
    [("metric", jsStr args.metric)]
    ++ (if strTruthy args.from_date then [("from_date", args.from_date.getD "")] else [])
    ++ (if strTruthy args.to_date then [("to_date", args.to_date.getD "")] else [])
  match makeApiRequest st o.redisOk o.apiResp (jsStr args.seller_id) "GET"
      ("/analytics?" ++ paramsToString ps) with
  | (Except.ok d, cs) => (Except.ok (renderOk d), cs)
  | (Except.error m, cs) => (Except.error m, cs)

/-- `handleMyntraOperation`: the inner switch routing a gated tool call to
its handler; an unknown name throws. -/
def handleMyntraOperation (st : TokenStore) (o : Oracle) (name : String)
    (args : ToolArgs) : Except String ToolResult × List NetCall :=
  if name = "myntra_list_products" then listProducts st o args
  else if name = "myntra_get_product" then getProduct st o args
  else if name = "myntra_create_product" then createProduct st o args
  else if name = "myntra_update_product" then updateProduct st o args
  else if name = "myntra_update_inventory" then updateInventory st o args
  else if name = "myntra_list_orders" then listOrders st o args
  else if name = "myntra_get_order" then getOrder st o args
  else if name = "myntra_update_order_status" then updateOrderStatus st o args
  else if name = "myntra_get_returns" then getReturns st o args
  else if name = "myntra_process_return" then processReturn st o args
  else if name = "myntra_get_analytics" then getAnalytics st o args
  else (Except.error ("Unknown operation: " ++ name), [])

/-- `handleAuthenticate`: validate the three arguments; short-circuit when
already authenticated; otherwise call the token-issuance endpoint and on
success persist the session; its own try/catch converts any failure into an
error `ToolResult`. -/
def handleAuthenticate (st : TokenStore) (now : Nat) (o : Oracle)
    (args : ToolArgs) : ToolResult × TokenStore × List NetCall :=
  if !(strTruthy args.seller_id && strTruthy args.api_key
        && strTruthy args.api_secret) then
    ({ text := "Error: seller_id, api_key, and api_secret are required for authentication.",
       isError := true }, st, [])
  else
    let sid := args.seller_id.getD ""
    let chk := checkAuthentication st now o sid
    if chk.1 then
      ({ text := "Already authenticated with Myntra!\n\nSeller ID: " ++ sid,
         isError := false }, chk.2.1, chk.2.2)
    else
      let issuance :=
        NetCall.authToken sid (args.api_key.getD "") (args.api_secret.getD "")
      match o.tokenResp with
      | Except.ok resp =>
        let tokens : SellerTokens :=
          { accessToken := resp.access_token
            refreshToken := resp.refresh_token
            expiresOn := some (now + resp.expires_in * 1000)
            sellerId := some sid }
        ({ text := "Successfully authenticated with Myntra!\n\nSeller ID: " ++ sid
              ++ "\nToken expires in: " ++ toString (resp.expires_in / 60)
              ++ " minutes",
           isError := false },
         storeTokens chk.2.1 o.redisOk sid tokens, chk.2.2 ++ [issuance])
      | Except.error m =>
        ({ text := "Authentication failed: " ++ m, isError := true },
         chk.2.1, chk.2.2 ++ [issuance])

/-- `handleStatus`: validate the seller id; when authenticated, attempt the
best-effort `/account/info` fetch (its failure degrades to a non-error
reply); when not, report not connected (also not an error reply). -/
def handleStatus (st : TokenStore) (now : Nat) (o : Oracle)
    (sellerId : Option String) : ToolResult × TokenStore × List NetCall :=
  if strTruthy sellerId = false then
    ({ text := "Error: seller_id is required", isError := true }, st, [])
  else
    let sid := sellerId.getD ""
    let chk := checkAuthentication st now o sid
    if chk.1 then
      match makeApiRequest chk.2.1 o.redisOk o.apiResp sid "GET" "/account/info" with
      | (Except.ok _, cs) =>
        ({ text := "**Myntra Seller Account Connected**\n\nSeller ID: " ++ sid
              ++ "\nAuthenticated: Yes", isError := false },
         chk.2.1, chk.2.2 ++ cs)
      | (Except.error m, cs) =>
        ({ text := "Connected but unable to fetch details: " ++ m,
           isError := false }, chk.2.1, chk.2.2 ++ cs)
    else
      ({ text := "**Not connected to Myntra**\n\nRun myntra_authenticate to get started.",
         isError := false }, chk.2.1, chk.2.2)

/-- The `CallToolRequestSchema` handler (the spec's `dispatch`): route the
two auth tools directly; otherwise gate on the seller id being present and
on `checkAuthentication`, then run the tool handler.  The surrounding
try/catch converts a handler exception into a thrown `McpError` whose
message is modelled by the `Except.error` branch of the result. -/
def dispatch (st : TokenStore) (now : Nat) (o : Oracle) (name : String)
    (args : Option ToolArgs) :
    Except String ToolResult × TokenStore × List NetCall :=
  let sellerId : Option String := args.bind (fun a => a.seller_id)
  if name = "myntra_authenticate" then
    let p := handleAuthenticate st now o (args.getD emptyArgs)
    (Except.ok p.1, p.2.1, p.2.2)
  else if name = "myntra_status" then
    let p := handleStatus st now o sellerId
    (Except.ok p.1, p.2.1, p.2.2)
  else if strTruthy sellerId = false then
    (Except.ok { text := "Error: seller_id is required for all Myntra operations.",
                 isError := true }, st, [])
  else
    let sid := sellerId.getD ""
    let chk := checkAuthentication st now o sid
    if chk.1 = false then
      (Except.ok { text := "Not authenticated with Myntra. Please authenticate first using myntra_authenticate.",
                   isError := true }, chk.2.1, chk.2.2)
    else
      match handleMyntraOperation chk.2.1 o name (args.getD emptyArgs) with
      | (Except.ok r, cs) => (Except.ok r, chk.2.1, chk.2.2 ++ cs)
      | (Except.error m, cs) =>
        (Except.error ("Error executing " ++ name ++ ": " ++ m),
         chk.2.1, chk.2.2 ++ cs)

/-- The `/auth/login` HTTP endpoint: validate the body fields, call the
token-issuance endpoint directly (no short-circuit), persist on success.
The reply is modelled as (HTTP status, body summary). -/
def authLogin (st : TokenStore) (now : Nat) (o : Oracle)
    (sellerId apiKey apiSecret : Option String) :
    (Nat × String) × TokenStore × List NetCall :=
  if !(strTruthy sellerId && strTruthy apiKey && strTruthy apiSecret) then
    ((400, "Missing required fields"), st, [])
  else
    let sid := sellerId.getD ""
    let issuance := NetCall.authToken sid (apiKey.getD "") (apiSecret.getD "")
    match o.tokenResp with
    | Except.ok resp =>
      let tokens : SellerTokens :=
        { accessToken := resp.access_token
          refreshToken := resp.refresh_token
          expiresOn := some (now + resp.expires_in * 1000)
          sellerId := some sid }
      ((200, "Authentication successful"), storeTokens st o.redisOk sid tokens,
        [issuance])
    | Except.error _ =>
      ((401, "Authentication failed"), st, [issuance])

/-- The Session invariant of the data model: every stored session's
`sellerId` field equals the key it is stored under, in both backends. -/
def storeInv (st : TokenStore) : Prop :=
  (∀ k tk, st.memData k = some tk → tk.sellerId = some k) ∧
  (∀ k tk, st.redisData k = some tk → tk.sellerId = some k)

/-! ### Concrete fixtures used by the scenario theorems and witnesses -/

/-- A stale session: valid-looking tokens whose expiry (500 ms) has passed
by `now = 1000`. -/
def tkStale : SellerTokens :=
  { accessToken := some "T0", refreshToken := some "R0",
    expiresOn := some 500, sellerId := some "S1" }

/-- In-memory store (no durable cache) holding the stale session for S1. -/
def stStale : TokenStore :=
  { redisConfigured := false, redisData := fun _ => none,
    memData := fun k => if k = "S1" then some tkStale else none }

/-- Empty in-memory store (no account ever authenticated). -/
def stEmpty : TokenStore :=
  { redisConfigured := false, redisData := fun _ => none,
    memData := fun _ => none }

/-- Oracle where every remote call fails. -/
def oFailBoth : Oracle :=
  { redisOk := true, refreshResp := Except.error "refresh down",
    tokenResp := Except.error "bad creds", apiResp := Except.error "boom" }

/-- Oracle where token issuance succeeds with the spec scenario's response
and the API call succeeds. -/
def oAuthOk : Oracle :=
  { redisOk := true, refreshResp := Except.error "unused",
    tokenResp := Except.ok
      { access_token := some "T1", refresh_token := some "R1", expires_in := 3600 },
    apiResp := Except.ok "payload" }

/-- Oracle where the refresh endpoint succeeds with a replacement token. -/
def oRefOk : Oracle :=
  { redisOk := true,
    refreshResp := Except.ok
      { access_token := some "T2", refresh_token := some "R2", expires_in := 3600 },
    tokenResp := Except.error "unused", apiResp := Except.ok "payload" }

/-- Valid tool arguments for the authenticate tool on account S1. -/
def argsAuth : ToolArgs :=
  { seller_id := some "S1", api_key := some "k", api_secret := some "s" }

/-- The store after the C6 authentication scenario, with token T1 for S1. -/
def stT1 : TokenStore :=
  (dispatch stEmpty 1000 oAuthOk "myntra_authenticate" (some argsAuth)).2.1

/-- A currently-valid session used by the revoke counterexample. -/
def tkValid : SellerTokens :=
  { accessToken := some "T9", refreshToken := some "R9",
    expiresOn := some 999999, sellerId := some "S1" }

/-- Durable-cache-configured store whose cache holds the valid session for
S1 while the in-process map is empty (the normal state after a successful
`storeTokens` against a reachable cache). -/
def stRedis : TokenStore :=
  { redisConfigured := true,
    redisData := fun k => if k = "S1" then some tkValid else none,
    memData := fun _ => none }

/-! ### Claim theorems -/

/-- C6: authenticating S1 against a remote returning access token T1,
refresh token R1 and expiry 3600 s at `now = 1000` persists the session
`{accessToken := T1, refreshToken := R1, expiresAt := now + 3600 * 1000}`
and reports success; a subsequent `list_products` call for S1 attaches
exactly T1 as the bearer credential of its single outbound request. -/
theorem c6_scenario_auth_then_bearer :
    (dispatch stEmpty 1000 oAuthOk "myntra_authenticate" (some argsAuth)).2.1.memData "S1"
      = some { accessToken := some "T1", refreshToken := some "R1",
               expiresOn := some (1000 + 3600 * 1000), sellerId := some "S1" }
    ∧ (dispatch stEmpty 1000 oAuthOk "myntra_authenticate" (some argsAuth)).1
      = Except.ok { text := "Successfully authenticated with Myntra!\n\nSeller ID: S1\nToken expires in: 60 minutes",
                    isError := false }
    ∧ (dispatch stT1 2000 oAuthOk "myntra_list_products"
          (some { seller_id := some "S1" })).2.2
      = [NetCall.apiCall "GET" "/products?limit=50&offset=0" "T1"] := by
  refine ⟨?_, ?_, ?_⟩ <;> rfl

/-- Oracle where the authenticated API call fails with message `boom`. -/
def oApiFail : Oracle :=
  { oAuthOk with apiResp := Except.error "boom" }

/-- C1 counterexample: with a valid session for S1 and a failing remote API
call, dispatching `myntra_list_products` does not return a ToolResult — the
handler's exception is re-thrown (as an `McpError` with the wrapped
message) and propagates out of `dispatch`. -/
theorem c1_counterexample_handler_error_rethrown :
    (dispatch stT1 2000 oApiFail "myntra_list_products"
        (some { seller_id := some "S1" })).1
      = Except.error "Error executing myntra_list_products: boom"
    ∧ (dispatch stT1 2000 oApiFail "myntra_list_products"
        (some { seller_id := some "S1" })).2.2
      = [NetCall.apiCall "GET" "/products?limit=50&offset=0" "T1"] := by
  refine ⟨?_, ?_⟩ <;> rfl

/-- C1 (amended): `dispatch` always yields a structured outcome — the
authenticate and status tools always return a ToolResult (they catch their
own failures), and the validation and authentication gates return error
ToolResults; but an exception raised inside a non-auth tool handler is
caught and re-raised as a structured McpError whose message is
`Error executing <tool>: <original message>`, propagating out of `dispatch`
to the protocol layer rather than being converted into an error ToolResult. -/
theorem c1_amended_structured_boundary (st : TokenStore) (now : Nat) (o : Oracle) :
    (∀ a, ∃ r, (dispatch st now o "myntra_authenticate" a).1 = Except.ok r)
    ∧ (∀ a, ∃ r, (dispatch st now o "myntra_status" a).1 = Except.ok r)
    ∧ (∀ name a e, (dispatch st now o name a).1 = Except.error e →
        ∃ m, e = "Error executing " ++ name ++ ": " ++ m) := by
  refine ⟨?_, ?_, ?_⟩
  · intro a
    exact ⟨(handleAuthenticate st now o (a.getD emptyArgs)).1, by simp [dispatch]⟩
  · intro a
    exact ⟨(handleStatus st now o (a.bind (fun x => x.seller_id))).1, by simp [dispatch]⟩
  · intro name a e h
    unfold dispatch at h
    by_cases h1 : name = "myntra_authenticate"
    · simp [h1] at h
    · by_cases h2 : name = "myntra_status"
      · simp [h1, h2] at h
      · simp only [if_neg h1, if_neg h2] at h
        by_cases h3 : strTruthy (a.bind (fun x => x.seller_id)) = false
        · simp [h3] at h
        · simp only [if_neg h3] at h
          by_cases h4 : (checkAuthentication st now o ((a.bind (fun x => x.seller_id)).getD "")).1 = false
          · simp [h4] at h
          · simp only [if_neg h4] at h
            rcases hop : handleMyntraOperation
                (checkAuthentication st now o ((a.bind (fun x => x.seller_id)).getD "")).2.1 o name
                (a.getD emptyArgs) with ⟨res, cs⟩
            rw [hop] at h
            cases res with
            | ok r => simp at h
            | error m => simp at h; exact ⟨m, h.symm⟩

/-- C1 amended witness: the boundary theorem applied at a concrete store,
oracle and tool call. -/
theorem c1_amended_witness :
    (∃ r, (dispatch stT1 2000 oApiFail "myntra_authenticate" (some argsAuth)).1
            = Except.ok r)
    ∧ ∃ m, "Error executing myntra_list_products: boom"
            = "Error executing myntra_list_products: " ++ m := by
  refine ⟨(c1_amended_structured_boundary stT1 2000 oApiFail).1 (some argsAuth), ?_⟩
  exact (c1_amended_structured_boundary stT1 2000 oApiFail).2.2 "myntra_list_products"
    (some { seller_id := some "S1" }) "Error executing myntra_list_products: boom" (by rfl)

/-- C5 counterexample: S1 holds a stale session with a refresh token; the
refresh attempt made by authenticate's pre-check fails and deletes the
session, then the token-issuance call fails too.  Authenticate returns the
error result, but the Token Store is NOT left exactly as it was: S1's
session was deleted. -/
theorem c5_counterexample_precheck_revokes :
    stStale.memData "S1" = some tkStale
    ∧ (dispatch stStale 1000 oFailBoth "myntra_authenticate" (some argsAuth)).1
        = Except.ok { text := "Authentication failed: bad creds", isError := true }
    ∧ (dispatch stStale 1000 oFailBoth "myntra_authenticate" (some argsAuth)).2.1.memData "S1"
        = none := by
  refine ⟨?_, ?_, ?_⟩ <;> rfl

/-- C5 (amended): for every failing remote token-issuance call, authenticate
returns an error result carrying the remote-supplied detail, and — provided
the account held no stored Session, so that the pre-check cannot revoke a
stale one — the Token Store is left exactly as it was; when the account held
a stale Session whose refresh also failed, that Session is deleted by the
pre-check before the issuance call. -/
theorem c5_amended_failure_leaves_store (st : TokenStore) (now : Nat) (o : Oracle)
    (args : ToolArgs) (sid m : String)
    (hconf : st.redisConfigured = false)
    (hsid : args.seller_id = some sid) (hs : sid ≠ "")
    (hkey : strTruthy args.api_key = true)
    (hsec : strTruthy args.api_secret = true)
    (hmem : st.memData sid = none)
    (htok : o.tokenResp = Except.error m) :
    dispatch st now o "myntra_authenticate" (some args)
      = (Except.ok { text := "Authentication failed: " ++ m, isError := true }, st,
         [NetCall.authToken sid (args.api_key.getD "") (args.api_secret.getD "")]) := by
  have hsidT : strTruthy args.seller_id = true := by simp [strTruthy, hsid, hs]
  have hchk : checkAuthentication st now o sid = (false, st, []) := by
    simp [checkAuthentication, getTokens, hconf, hmem]
  have hh : handleAuthenticate st now o args
      = ({ text := "Authentication failed: " ++ m, isError := true }, st,
         [NetCall.authToken sid (args.api_key.getD "") (args.api_secret.getD "")]) := by
    unfold handleAuthenticate
    rw [hsidT, hkey, hsec, hsid]
    simp only [Option.getD_some]
    simp only [hchk, htok]
    simp
  simp [dispatch, hh]

/-- C5 amended witness: the amended theorem applied to the empty store with
the failing issuance oracle. -/
theorem c5_amended_witness :
    dispatch stEmpty 1000 oFailBoth "myntra_authenticate" (some argsAuth)
      = (Except.ok { text := "Authentication failed: bad creds", isError := true },
         stEmpty, [NetCall.authToken "S1" "k" "s"]) :=
  c5_amended_failure_leaves_store stEmpty 1000 oFailBoth argsAuth "S1" "bad creds"
    rfl rfl (by decide) rfl rfl rfl rfl

/-- Deleting the same key twice is the same as deleting it once. -/
theorem upd_none_idem (f : String → Option SellerTokens) (k : String) :
    upd (upd f k none) k none = upd f k none := by
  funext x
  by_cases hx : x = k <;> simp [upd, hx]

/-- C8 counterexample: with the durable cache configured and holding S1's
session, a revoke during which the durable delete fails leaves the session
readable — the next `getTokens` (durable read succeeding) returns it and
`checkAuthentication` is still true, so after revoke the account still
holds a Session. -/
theorem c8_counterexample_failed_durable_delete :
    getTokens (revokeTokens stRedis false "S1") true "S1" = some tkValid
    ∧ (checkAuthentication (revokeTokens stRedis false "S1") 1000 oAuthOk "S1").1 = true := by
  refine ⟨?_, ?_⟩ <;> rfl

/-- C8 (amended): revoke always completes (it is a total function and
swallows durable-store failures), always deletes the in-process entry, and
is idempotent; after revoke the account holds no Session whenever no durable
cache is configured, or the durable delete succeeded.  (A failing durable
delete can leave the durable copy readable.) -/
theorem c8_amended_revoke (st : TokenStore) (ok g : Bool) (sid : String) :
    (revokeTokens st ok sid).memData sid = none
    ∧ (st.redisConfigured = false → getTokens (revokeTokens st ok sid) g sid = none)
    ∧ (st.redisConfigured = true →
        (revokeTokens st true sid).redisData sid = none
        ∧ getTokens (revokeTokens st true sid) g sid = none)
    ∧ revokeTokens (revokeTokens st ok sid) ok sid = revokeTokens st ok sid := by
  obtain ⟨c, r, mem⟩ := st
  refine ⟨?_, ?_, ?_, ?_⟩
  · by_cases h : c && ok <;> simp [revokeTokens, h, upd]
  · intro hc
    subst hc
    simp [revokeTokens, getTokens, upd]
  · intro hc
    subst hc
    constructor
    · simp [revokeTokens, upd]
    · cases g <;> simp [revokeTokens, getTokens, upd]
  · by_cases h : c && ok <;> simp [revokeTokens, h, upd_none_idem]

/-- C8 amended witness: revoking the never-authenticated account S2 on the
empty in-memory store completes, leaves no session, and is idempotent. -/
theorem c8_amended_witness :
    (revokeTokens stEmpty true "S2").memData "S2" = none
    ∧ getTokens (revokeTokens stEmpty true "S2") true "S2" = none
    ∧ revokeTokens (revokeTokens stEmpty true "S2") true "S2"
        = revokeTokens stEmpty true "S2" := by
  have h := c8_amended_revoke stEmpty true true "S2"
  exact ⟨h.1, h.2.1 rfl, h.2.2.2⟩

/-- C2: for a stored stale session (access token present, expiry passed)
with a refresh token, `checkAuthentication` calls the remote refresh
endpoint; on success it replaces the session (new access token, the
response's refresh token falling back to the prior one when falsy, new
expiry `now + expires_in * 1000`), returns true, and a subsequent outbound
call attaches the new access token; on failure it deletes the session,
returns false, and a subsequent `checkAuthentication` is false; with no
refresh token it returns false without any network call. -/
theorem c2_stale_refresh (st : TokenStore) (now e : Nat) (o : Oracle)
    (sid : String) (tk : SellerTokens)
    (hconf : st.redisConfigured = false)
    (hmem : st.memData sid = some tk)
    (hacc : strTruthy tk.accessToken = true)
    (hexp : tk.expiresOn = some e)
    (hstale : e ≤ now) :
    (∀ rt, tk.refreshToken = some rt → rt ≠ "" →
      (∀ resp, o.refreshResp = Except.ok resp →
        checkAuthentication st now o sid
          = (true,
             { st with memData := upd st.memData sid (some
                 { accessToken := resp.access_token
                   refreshToken := strOr resp.refresh_token tk.refreshToken
                   expiresOn := some (now + resp.expires_in * 1000)
                   sellerId := some sid }) },
             [NetCall.authRefresh rt])
        ∧ ∀ tok, resp.access_token = some tok → tok ≠ "" → ∀ mth pth,
            makeApiRequest (checkAuthentication st now o sid).2.1 o.redisOk o.apiResp sid mth pth
              = (o.apiResp, [NetCall.apiCall mth pth tok]))
      ∧ (∀ msg, o.refreshResp = Except.error msg →
          checkAuthentication st now o sid
            = (false, revokeTokens st o.redisOk sid, [NetCall.authRefresh rt])
          ∧ (revokeTokens st o.redisOk sid).memData sid = none
          ∧ (checkAuthentication (revokeTokens st o.redisOk sid) now o sid).1 = false))
    ∧ (strTruthy tk.refreshToken = false →
        checkAuthentication st now o sid = (false, st, [])) := by
  have hget : getTokens st o.redisOk sid = some tk := by
    simp [getTokens, hconf, hmem]
  have hlt : decide (now < e) = false := decide_eq_false (Nat.not_lt.mpr hstale)
  refine ⟨?_, ?_⟩
  · intro rt hrt hrtne
    have hrtT : strTruthy tk.refreshToken = true := by simp [strTruthy, hrt, hrtne]
    have hsome : strTruthy (some rt) = true := by simp [strTruthy, hrtne]
    refine ⟨?_, ?_⟩
    · intro resp hresp
      have hchk : checkAuthentication st now o sid
          = (true,
             { st with memData := upd st.memData sid (some
                 { accessToken := resp.access_token
                   refreshToken := strOr resp.refresh_token tk.refreshToken
                   expiresOn := some (now + resp.expires_in * 1000)
                   sellerId := some sid }) },
             [NetCall.authRefresh rt]) := by
        simp only [checkAuthentication, hget, hacc, hexp, hrt, hresp, hrtT,
          Option.getD_some, hlt, Bool.and_false, Bool.true_eq_false, if_false,
          Bool.false_eq_true, if_true, storeTokens, hconf, hsome]
      refine ⟨hchk, ?_⟩
      intro tok htok htokne mth pth
      rw [hchk]
      simp only [makeApiRequest, getTokens, hconf, upd]
      simp [htok, htokne]
    · intro msg hresp
      have hchk : checkAuthentication st now o sid
          = (false, revokeTokens st o.redisOk sid, [NetCall.authRefresh rt]) := by
        simp only [checkAuthentication, hget, hacc, hexp, hrt, hresp, hrtT,
          Option.getD_some, hlt, Bool.and_false, Bool.true_eq_false, if_false,
          Bool.false_eq_true, if_true, hsome]
      have hrev : (revokeTokens st o.redisOk sid).memData sid = none := by
        by_cases h : st.redisConfigured && o.redisOk <;> simp [revokeTokens, h, upd]
      refine ⟨hchk, hrev, ?_⟩
      have hconf2 : (revokeTokens st o.redisOk sid).redisConfigured = false := by
        by_cases h : st.redisConfigured && o.redisOk <;> simp [revokeTokens, h, hconf]
      have hget2 : getTokens (revokeTokens st o.redisOk sid) o.redisOk sid = none := by
        simp [getTokens, hconf2, hrev]
      simp [checkAuthentication, hget2]
  · intro hrtF
    simp only [checkAuthentication, hget, hacc, hexp, hrtF,
      Option.getD_some, hlt, Bool.and_false, Bool.true_eq_false, if_false,
      Bool.false_eq_true, if_true]

/-- C2 witness: the stale-session theorem applied to the concrete store
`stStale` with a successful refresh oracle. -/
theorem c2_witness_concrete_refresh :
    checkAuthentication stStale 1000 oRefOk "S1"
      = (true,
         { stStale with memData := upd stStale.memData "S1" (some
             { accessToken := some "T2", refreshToken := strOr (some "R2") (some "R0"),
               expiresOn := some (1000 + 3600 * 1000), sellerId := some "S1" }) },
         [NetCall.authRefresh "R0"])
    ∧ makeApiRequest (checkAuthentication stStale 1000 oRefOk "S1").2.1 oRefOk.redisOk
        oRefOk.apiResp "S1" "GET" "/account/info"
      = (oRefOk.apiResp, [NetCall.apiCall "GET" "/account/info" "T2"]) := by
  have h := (c2_stale_refresh stStale 1000 500 oRefOk "S1" tkStale rfl rfl rfl rfl
    (by decide)).1 "R0" rfl (by decide)
  have ha := h.1 { access_token := some "T2", refresh_token := some "R2", expires_in := 3600 } rfl
  exact ⟨ha.1, ha.2 "T2" rfl (by decide) "GET" "/account/info"⟩

/-- C3: for an account holding a currently-valid session, `authenticate`
short-circuits: it returns success reporting the account identifier without
any remote call (empty effect list) and leaves the store unchanged, and a
second call on the resulting store behaves identically — so two calls in
succession make zero remote calls and report the same identifier. -/
theorem c3_authenticate_idempotent (st : TokenStore) (now e : Nat) (o : Oracle)
    (sid : String) (tk : SellerTokens) (args : ToolArgs)
    (hconf : st.redisConfigured = false)
    (hmem : st.memData sid = some tk)
    (hacc : strTruthy tk.accessToken = true)
    (hexp : tk.expiresOn = some e) (he0 : e ≠ 0) (hnow : now < e)
    (hsid : args.seller_id = some sid) (hs : sid ≠ "")
    (hkey : strTruthy args.api_key = true) (hsec : strTruthy args.api_secret = true) :
    dispatch st now o "myntra_authenticate" (some args)
      = (Except.ok { text := "Already authenticated with Myntra!\n\nSeller ID: " ++ sid,
                     isError := false }, st, [])
    ∧ dispatch ((dispatch st now o "myntra_authenticate" (some args)).2.1) now o
        "myntra_authenticate" (some args)
      = (Except.ok { text := "Already authenticated with Myntra!\n\nSeller ID: " ++ sid,
                     isError := false }, st, []) := by
  have hget : getTokens st o.redisOk sid = some tk := by
    simp [getTokens, hconf, hmem]
  have hchk : checkAuthentication st now o sid = (true, st, []) := by
    simp only [checkAuthentication, hget, hacc, hexp, Option.getD_some]
    simp [natTruthy, he0, hnow]
  have hsidT : strTruthy args.seller_id = true := by simp [strTruthy, hsid, hs]
  have hh : handleAuthenticate st now o args
      = ({ text := "Already authenticated with Myntra!\n\nSeller ID: " ++ sid,
           isError := false }, st, []) := by
    unfold handleAuthenticate
    rw [hsidT, hkey, hsec, hsid]
    simp only [Option.getD_some, hchk]
    simp
  have h1 : dispatch st now o "myntra_authenticate" (some args)
      = (Except.ok { text := "Already authenticated with Myntra!\n\nSeller ID: " ++ sid,
                     isError := false }, st, []) := by
    simp [dispatch, hh]
  exact ⟨h1, by rw [h1]; exact h1⟩


/-- C3 witness: the idempotence theorem applied to the store holding a
valid session for S1. -/
theorem c3_witness_concrete :
    dispatch stT1 2000 oApiFail "myntra_authenticate" (some argsAuth)
      = (Except.ok { text := "Already authenticated with Myntra!\n\nSeller ID: " ++ "S1",
                     isError := false }, stT1, [])
    ∧ dispatch ((dispatch stT1 2000 oApiFail "myntra_authenticate" (some argsAuth)).2.1)
        2000 oApiFail "myntra_authenticate" (some argsAuth)
      = (Except.ok { text := "Already authenticated with Myntra!\n\nSeller ID: " ++ "S1",
                     isError := false }, stT1, []) :=
  c3_authenticate_idempotent stT1 2000 3601000 oApiFail "S1"
    { accessToken := some "T1", refreshToken := some "R1",
      expiresOn := some 3601000, sellerId := some "S1" } argsAuth
    rfl rfl rfl rfl (by decide) (by decide) rfl (by decide) rfl rfl

/-- C4: for an account with no stored session, `checkAuthentication` is
false, and dispatching any tool other than authenticate and status with
that account identifier returns the error ToolResult directing the caller
to authenticate, with no network call (so the tool handler never runs) and
the store unchanged. -/
theorem c4_unauthenticated_gate (st : TokenStore) (now : Nat) (o : Oracle)
    (sid name : String) (args : ToolArgs)
    (hconf : st.redisConfigured = false)
    (hmem : st.memData sid = none)
    (hn1 : name ≠ "myntra_authenticate") (hn2 : name ≠ "myntra_status")
    (hsid : args.seller_id = some sid) (hs : sid ≠ "") :
    checkAuthentication st now o sid = (false, st, [])
    ∧ dispatch st now o name (some args)
      = (Except.ok { text := "Not authenticated with Myntra. Please authenticate first using myntra_authenticate.",
                     isError := true }, st, []) := by
  have hchk : checkAuthentication st now o sid = (false, st, []) := by
    simp [checkAuthentication, getTokens, hconf, hmem]
  refine ⟨hchk, ?_⟩
  have hsT : strTruthy (some sid) = true := by simp [strTruthy, hs]
  unfold dispatch
  simp only [if_neg hn1, if_neg hn2]
  simp [hsid, hsT, hchk]


/-- C4 witness: the gate theorem applied to the empty store and the
`myntra_get_order` tool. -/
theorem c4_witness_concrete :
    checkAuthentication stEmpty 1000 oApiFail "S1" = (false, stEmpty, [])
    ∧ dispatch stEmpty 1000 oApiFail "myntra_get_order"
        (some { seller_id := some "S1" })
      = (Except.ok { text := "Not authenticated with Myntra. Please authenticate first using myntra_authenticate.",
                     isError := true }, stEmpty, []) :=
  c4_unauthenticated_gate stEmpty 1000 oApiFail "S1" "myntra_get_order"
    { seller_id := some "S1" } rfl rfl (by decide) (by decide) rfl (by decide)

/-- C9: dispatching any tool other than authenticate and status with an
argument object lacking the seller id returns the validation-error
ToolResult, with no network call and the store unchanged (the result does
not depend on the store at all). -/
theorem c9_missing_seller_validation (st : TokenStore) (now : Nat) (o : Oracle)
    (name : String) (args : ToolArgs)
    (hn1 : name ≠ "myntra_authenticate") (hn2 : name ≠ "myntra_status")
    (hsid : args.seller_id = none) :
    dispatch st now o name (some args)
      = (Except.ok { text := "Error: seller_id is required for all Myntra operations.",
                     isError := true }, st, []) := by
  unfold dispatch
  simp only [if_neg hn1, if_neg hn2]
  simp [hsid, strTruthy]


/-- C9 witness: the validation theorem applied to a `myntra_get_order`
dispatch with empty arguments. -/
theorem c9_witness_concrete :
    dispatch stStale 1000 oAuthOk "myntra_get_order" (some emptyArgs)
      = (Except.ok { text := "Error: seller_id is required for all Myntra operations.",
                     isError := true }, stStale, []) :=
  c9_missing_seller_validation stStale 1000 oAuthOk "myntra_get_order" emptyArgs
    (by decide) (by decide) rfl

/-- C10: dispatching any tool with seller id present but equal to the empty
string behaves exactly as if it were absent: the result and effects are
identical to the absent case, and every branch (authenticate, status,
other) returns its validation-error ToolResult with no network call and the
store unchanged. -/
theorem c10_empty_seller_id (st : TokenStore) (now : Nat) (o : Oracle)
    (name : String) (a : ToolArgs) (ha : a.seller_id = some "") :
    dispatch st now o name (some a)
      = dispatch st now o name (some { a with seller_id := none })
    ∧ (name = "myntra_authenticate" →
        dispatch st now o name (some a)
          = (Except.ok { text := "Error: seller_id, api_key, and api_secret are required for authentication.",
                         isError := true }, st, []))
    ∧ (name = "myntra_status" →
        dispatch st now o name (some a)
          = (Except.ok { text := "Error: seller_id is required", isError := true }, st, []))
    ∧ (name ≠ "myntra_authenticate" → name ≠ "myntra_status" →
        dispatch st now o name (some a)
          = (Except.ok { text := "Error: seller_id is required for all Myntra operations.",
                         isError := true }, st, [])) := by
  refine ⟨?_, ?_, ?_, ?_⟩
  · by_cases h1 : name = "myntra_authenticate"
    · subst h1
      simp [dispatch, handleAuthenticate, ha, strTruthy]
    · by_cases h2 : name = "myntra_status"
      · subst h2
        simp [dispatch, handleStatus, ha, strTruthy]
      · unfold dispatch
        simp only [if_neg h1, if_neg h2]
        simp [ha, strTruthy]
  · intro h1
    subst h1
    simp [dispatch, handleAuthenticate, ha, strTruthy]
  · intro h2
    subst h2
    simp [dispatch, handleStatus, ha, strTruthy]
  · intro h1 h2
    unfold dispatch
    simp only [if_neg h1, if_neg h2]
    simp [ha, strTruthy]

/-- C10 witness: the empty-seller-id theorem applied to a
`myntra_get_order` dispatch. -/
theorem c10_witness_concrete :
    dispatch stStale 1000 oAuthOk "myntra_get_order" (some { seller_id := some "" })
      = dispatch stStale 1000 oAuthOk "myntra_get_order" (some { seller_id := none })
    ∧ dispatch stStale 1000 oAuthOk "myntra_get_order" (some { seller_id := some "" })
      = (Except.ok { text := "Error: seller_id is required for all Myntra operations.",
                     isError := true }, stStale, []) := by
  have h := c10_empty_seller_id stStale 1000 oAuthOk "myntra_get_order"
    { seller_id := some "" } rfl
  exact ⟨h.1, h.2.2.2 (by decide) (by decide)⟩

/-! ### C7 helper lemmas: invariant preservation through the store writes -/

theorem inv_upd (f : String → Option SellerTokens) (sid : String) (tk : SellerTokens)
    (hf : ∀ k t, f k = some t → t.sellerId = some k) (htk : tk.sellerId = some sid) :
    ∀ k t, upd f sid (some tk) k = some t → t.sellerId = some k := by
  intro k t h
  by_cases hk : k = sid
  · subst hk
    simp [upd] at h
    subst h
    exact htk
  · exact hf k t (by simpa [upd, hk] using h)

theorem inv_upd_none (f : String → Option SellerTokens) (sid : String)
    (hf : ∀ k t, f k = some t → t.sellerId = some k) :
    ∀ k t, upd f sid none k = some t → t.sellerId = some k := by
  intro k t h
  by_cases hk : k = sid
  · subst hk
    simp [upd] at h
  · exact hf k t (by simpa [upd, hk] using h)

theorem storeInv_storeTokens (st : TokenStore) (ok : Bool) (sid : String)
    (tk : SellerTokens) (hinv : storeInv st) (htk : tk.sellerId = some sid) :
    storeInv (storeTokens st ok sid tk) := by
  unfold storeTokens
  split
  · split
    · exact ⟨hinv.1, inv_upd _ _ _ hinv.2 htk⟩
    · exact ⟨inv_upd _ _ _ hinv.1 htk, hinv.2⟩
  · exact ⟨inv_upd _ _ _ hinv.1 htk, hinv.2⟩

theorem storeInv_revokeTokens (st : TokenStore) (ok : Bool) (sid : String)
    (hinv : storeInv st) : storeInv (revokeTokens st ok sid) := by
  unfold revokeTokens
  by_cases h : (st.redisConfigured && ok) = true <;> simp only [h, if_true, if_false, Bool.false_eq_true]
  · exact ⟨inv_upd_none _ _ hinv.1, inv_upd_none _ _ hinv.2⟩
  · exact ⟨inv_upd_none _ _ hinv.1, hinv.2⟩

theorem storeInv_checkAuthentication (st : TokenStore) (now : Nat) (o : Oracle)
    (sid : String) (hinv : storeInv st) :
    storeInv (checkAuthentication st now o sid).2.1 := by
  unfold checkAuthentication
  split
  · exact hinv
  · split
    · exact hinv
    · split
      · exact hinv
      · split
        · split
          · exact storeInv_storeTokens _ _ _ _ hinv rfl
          · exact storeInv_revokeTokens _ _ _ hinv
        · exact hinv

theorem storeInv_handleAuthenticate (st : TokenStore) (now : Nat) (o : Oracle)
    (args : ToolArgs) (hinv : storeInv st) :
    storeInv (handleAuthenticate st now o args).2.1 := by
  have hchk := storeInv_checkAuthentication st now o (args.seller_id.getD "") hinv
  unfold handleAuthenticate
  split
  · exact hinv
  · split
    · dsimp only
      split
      · exact hchk
      · exact storeInv_storeTokens _ _ _ _ hchk rfl
    · dsimp only
      split
      · exact hchk
      · exact hchk

theorem storeInv_authLogin (st : TokenStore) (now : Nat) (o : Oracle)
    (a b c : Option String) (hinv : storeInv st) :
    storeInv (authLogin st now o a b c).2.1 := by
  unfold authLogin
  split
  · exact hinv
  · split
    · exact storeInv_storeTokens _ _ _ _ hinv rfl
    · exact hinv


/-- C7: every operation that writes a Session — the authenticate tool, the
HTTP login endpoint, and the refresh inside `checkAuthentication` — writes
it with `sellerId` equal to the key it is stored under, so the invariant
"each stored session's sellerId equals its map key" is preserved in both
backends. -/
theorem c7_session_key_invariant (st : TokenStore) (hinv : storeInv st) :
    (∀ now o args, storeInv (handleAuthenticate st now o args).2.1)
    ∧ (∀ now o a b c, storeInv (authLogin st now o a b c).2.1)
    ∧ (∀ now o sid, storeInv (checkAuthentication st now o sid).2.1) :=
  ⟨fun now o args => storeInv_handleAuthenticate st now o args hinv,
   fun now o a b c => storeInv_authLogin st now o a b c hinv,
   fun now o sid => storeInv_checkAuthentication st now o sid hinv⟩


/-- C7 witness: the invariant theorem applied to the empty store and the
concrete successful authentication. -/
theorem c7_witness_concrete :
    storeInv (handleAuthenticate stEmpty 1000 oAuthOk argsAuth).2.1 :=
  (c7_session_key_invariant stEmpty
    ⟨fun _ _ h => Option.noConfusion h, fun _ _ h => Option.noConfusion h⟩).1
    1000 oAuthOk argsAuth
